import Mathlib

/-!
Shallow embedding of the cfresolver service core (src/app.py).

The program is a FastAPI proxy around one long-lived Selenium Chrome driver:
  - `RequestData` (pydantic model, app.py lines 33-40),
  - `WebDriverManager` with `start_driver` / `stop_driver` / `reset_driver`
    (app.py lines 43-91),
  - `fetch_page` (app.py lines 104-152): URL assembly, a three-way strategy
    dispatch (form submission / hybrid JSON POST / plain navigation), reset
    on success, stop+start recovery and a single HTTPException on failure,
  - the `GET /proxy` endpoint `proxy_get` (app.py lines 155-159).

External effects (the Selenium driver, the `requests` HTTP client) are
modelled by a `World` record of oracles saying how each effectful call
behaves, and every operation additionally returns the list of externally
visible `Event`s it performed, in order.  Python dictionaries become
association lists (Python 3.7+ dicts preserve insertion order, which is the
order the source iterates in).  Python exceptions become `Except PyErr`;
`try/except` blocks from the source become the corresponding handling of
the `Except` value.
-/

/-- Python truthiness of an `Optional[str]` value: `None` and the empty
string are falsy, every other string is truthy.  This is the semantics of
`request_data.form_selector` appearing in a boolean context at
app.py line 113. -/
def truthy : Option String → Bool
  | none => false
  | some s => !s.isEmpty

/-- Embedding of the pydantic `RequestData` model (app.py lines 33-40).
Field defaults mirror the pydantic defaults (`{}` becomes `[]`,
`None` becomes `none`). -/
structure RequestData where
  url : String
  params : List (String × String) := []
  headers : List (String × String) := []
  data : List (String × String) := []
  json_data : List (String × String) := []
  form_selector : Option String := none
  submit_selector : Option String := none
deriving DecidableEq

/-- Python exceptions that can cross function boundaries in app.py.
`initError` is the exception re-raised by `start_driver` when
`webdriver.Chrome` fails (line 71), carrying the attempt number for the
model; `navError` is a selenium error from `driver.get`; `noSuchElement`
is a selenium lookup failure; `httpStatusError` is the
`requests.HTTPError` raised by `response.raise_for_status` (line 133);
`httpExc` is a fastapi `HTTPException` with status code and detail. -/
inductive PyErr where
  | initError (attempt : Nat)
  | navError (url : String)
  | noSuchElement (sel : String)
  | httpStatusError (msg : String)
  | httpExc (status : Nat) (detail : String)
deriving DecidableEq

/-- Python `str(e)` for the exceptions in `PyErr`.  For the fastapi/starlette
`HTTPException` this is the starlette `__str__`, which renders
`"{status_code}: {detail}"`; the selenium and init messages are abstracted
but keep the distinguishing data. -/
def errMsg : PyErr → String
  | .initError n => "WebDriver init failed (attempt " ++ toString n ++ ")"
  | .navError u => "navigation failed: " ++ u
  | .noSuchElement sel => "no such element: " ++ sel
  | .httpStatusError m => m
  | .httpExc st d => toString st ++ ": " ++ d

/-- Message of the `requests.HTTPError` produced by `raise_for_status` for a
4xx/5xx status, following the shape the requests library uses
(client error below 500, server error from 500). -/
def statusErrorMsg (st : Nat) (url : String) : String :=
  if st < 500 then toString st ++ " Client Error for url: " ++ url
  else toString st ++ " Server Error for url: " ++ url

/-- Externally visible effects, in program order.  `startAttempt n ok` is one
`webdriver.Chrome` creation attempt, `quit id failed` is `driver.quit()`
(with whether the quit call itself raised, which `stop_driver` swallows),
`navigate` is `driver.get`, `post` is the out-of-band `requests.post` call
(recording the URL it was given and the `params` argument passed alongside),
`resetState` is the in-place cookie/storage clearing of `reset_driver`. -/
inductive Event where
  | startAttempt (attempt : Nat) (ok : Bool)
  | quit (id : Nat) (failed : Bool)
  | navigate (url : String)
  | post (url : String) (params : List (String × String))
  | resetState (id : Nat)
deriving DecidableEq

/-- Oracle for the behaviour of the external world: the Chrome driver and the
target HTTP server.  Driver creation attempts are numbered; each live driver
carries the number of the attempt that created it. -/
structure World where
  startFails : Nat → Bool
  quitFails : Nat → Bool
  navFails : String → Bool
  pageSource : String → String
  postSubmitSource : String → String
  findCss : String → Bool
  findName : String → Bool
  postStatus : String → Nat
  resetFails : Nat → Bool

/-- State of the global `WebDriverManager` (app.py lines 43-45): the live
driver handle, if any, plus the number of the next creation attempt
(a modelling device that lets `World.startFails` speak about individual
attempts). -/
structure MgrState where
  driver : Option Nat
  nextId : Nat
deriving DecidableEq

/-- Embedding of `WebDriverManager.start_driver` (app.py lines 47-72): if a
driver already exists it is returned unchanged; otherwise one creation
attempt is made, and a creation failure is re-raised (line 71) leaving
`self.driver` as `None`. -/
def start_driver (w : World) (s : MgrState) :
    Except PyErr Nat × MgrState × List Event :=
  match s.driver with
  | some id => (.ok id, s, [])
  | none =>
    if w.startFails s.nextId then
      (.error (.initError s.nextId), ⟨none, s.nextId + 1⟩,
        [.startAttempt s.nextId false])
    else
      (.ok s.nextId, ⟨some s.nextId, s.nextId + 1⟩,
        [.startAttempt s.nextId true])

/-- Embedding of `WebDriverManager.stop_driver` (app.py lines 74-81): a no-op
when no driver exists; otherwise `driver.quit()` is attempted, any error it
raises is caught and only logged (lines 77-80), and the handle is cleared
(line 81) regardless. -/
def stop_driver (w : World) (s : MgrState) : MgrState × List Event :=
  match s.driver with
  | none => (s, [])
  | some id => (⟨none, s.nextId⟩, [.quit id (w.quitFails id)])

/-- Embedding of `WebDriverManager.reset_driver` (app.py lines 83-91): try an
in-place reset (delete cookies, clear local and session storage); on any
exception, fall back to `stop_driver` followed by `start_driver`.  A failure
of the fallback `start_driver` is not caught and therefore propagates.  When
`self.driver` is `None` the attribute access raises and the same fallback
runs. -/
def reset_driver (w : World) (s : MgrState) :
    Except PyErr Unit × MgrState × List Event :=
  match s.driver with
  | some id =>
    if w.resetFails id then
      let (s1, ev1) := stop_driver w s
      match start_driver w s1 with
      | (.ok _, s2, ev2) => (.ok (), s2, ev1 ++ ev2)
      | (.error e, s2, ev2) => (.error e, s2, ev1 ++ ev2)
    else (.ok (), s, [.resetState id])
  | none =>
    let (s1, ev1) := stop_driver w s
    match start_driver w s1 with
    | (.ok _, s2, ev2) => (.ok (), s2, ev1 ++ ev2)
    | (.error e, s2, ev2) => (.error e, s2, ev1 ++ ev2)

/-- The joined query string of app.py line 110:
`"&".join([f"{key}={value}" for key, value in request_data.params.items()])`. -/
def query_string (params : List (String × String)) : String :=
  String.intercalate "&" (params.map fun kv => kv.1 ++ "=" ++ kv.2)

/-- URL assembly of app.py lines 109-111: when `params` is non-empty, append
the joined query string with `?` if the URL does not already contain a `?`
character, else with `&`; an empty `params` leaves the URL unchanged. -/
def build_url (url : String) (params : List (String × String)) : String :=
  if !params.isEmpty then
    if !url.contains '?' then url ++ "?" ++ query_string params
    else url ++ "&" ++ query_string params
  else url

/-- The condition of the form branch at app.py line 113:
`request_data.data and request_data.form_selector and
request_data.submit_selector`, under Python truthiness (a non-empty form
dict, and both selectors neither `None` nor the empty string). -/
def formCond (r : RequestData) : Bool :=
  !r.data.isEmpty && truthy r.form_selector && truthy r.submit_selector

/-- The three mutually exclusive fetch strategies of app.py lines 113-143. -/
inductive Strategy where
  | form
  | jsonHybrid
  | plain
deriving DecidableEq

/-- Strategy selection exactly as the `if`/`elif`/`else` chain of
app.py lines 113, 125 and 140 evaluates it: the form branch wins when its
condition holds, otherwise the JSON branch when `json_data` is non-empty,
otherwise plain navigation. -/
def selectStrategy (r : RequestData) : Strategy :=
  if formCond r then .form
  else if !r.json_data.isEmpty then .jsonHybrid
  else .plain

/-- One `driver.get(url)` call: fails when the world says navigation to this
URL fails. -/
def nav (w : World) (u : String) : Except PyErr Unit :=
  if w.navFails u then .error (.navError u) else .ok ()

/-- The field loop of app.py lines 117-120: for each form entry, look up an
element by name inside the form and type the value; a lookup failure raises
a selenium `NoSuchElementException`. -/
def fill_fields (w : World) : List (String × String) → Except PyErr Unit
  | [] => .ok ()
  | (k, _) :: rest =>
    if w.findName k then fill_fields w rest
    else .error (.noSuchElement k)

/-- Embedding of the dispatch section of `fetch_page` (app.py lines 108-143):
assemble the URL, then run exactly one of the three strategies.  The form
branch (lines 113-124) navigates, locates the form by CSS selector, fills
each field, locates and clicks the submit control, and captures the page
source.  The JSON branch (lines 125-139) issues the out-of-band
`requests.post` with the assembled URL, the JSON body, the headers and -
again - `params`; `raise_for_status` raises exactly for statuses in
`[400, 600)`, and that `requests.RequestException` is caught and re-raised
as an `HTTPException(500, "Error in POST request: ...")` (line 139); when no
status error is raised the browser navigates to the same URL and captures
the page source (a navigation error there is a selenium exception, which the
inner `except requests.RequestException` does not catch).  The default
branch (lines 140-143) navigates and captures.  Element lookups and clicks
are not traced as events; navigation and the POST are. -/
def dispatch (w : World) (r : RequestData) :
    Except PyErr String × List Event :=
  let url := build_url r.url r.params
  if formCond r then
    match nav w url with
    | .error e => (.error e, [.navigate url])
    | .ok () =>
      let fs := r.form_selector.getD ""
      let ss := r.submit_selector.getD ""
      if w.findCss fs then
        match fill_fields w r.data with
        | .error e => (.error e, [.navigate url])
        | .ok () =>
          if w.findCss ss then (.ok (w.postSubmitSource url), [.navigate url])
          else (.error (.noSuchElement ss), [.navigate url])
      else (.error (.noSuchElement fs), [.navigate url])
  else if !r.json_data.isEmpty then
    let st := w.postStatus url
    if 400 ≤ st ∧ st < 600 then
      (.error (.httpExc 500 ("Error in POST request: " ++ statusErrorMsg st url)),
        [.post url r.params])
    else
      match nav w url with
      | .error e => (.error e, [.post url r.params, .navigate url])
      | .ok () => (.ok (w.pageSource url), [.post url r.params, .navigate url])
  else
    match nav w url with
    | .error e => (.error e, [.navigate url])
    | .ok () => (.ok (w.pageSource url), [.navigate url])

/-- The success payload of `fetch_page` (app.py line 146):
`{"status": "success", "content": page_content}`. -/
structure FetchResult where
  status : String
  content : String
deriving DecidableEq

/-- The `except Exception` handler of `fetch_page` (app.py lines 148-152):
stop the driver, start a fresh one, then raise
`HTTPException(500, "Error fetching URL: " + str(e))`.  When the restart
itself raises, that new exception propagates instead of the
`HTTPException`. -/
def recover_and_raise (w : World) (s : MgrState) (e : PyErr) :
    Except PyErr FetchResult × MgrState × List Event :=
  let (s1, ev1) := stop_driver w s
  match start_driver w s1 with
  | (.ok _, s2, ev2) =>
    (.error (.httpExc 500 ("Error fetching URL: " ++ errMsg e)), s2, ev1 ++ ev2)
  | (.error e2, s2, ev2) => (.error e2, s2, ev1 ++ ev2)

/-- Embedding of `fetch_page` (app.py lines 104-152): acquire the driver
(line 105; a failure here is outside the `try` and propagates with no
recovery), dispatch the request, on success run `reset_driver` (line 145)
and return the success payload, and on any exception inside the `try` run
the recovery handler.  A `reset_driver` failure happens inside the `try`, so
it too reaches the handler. -/
def fetch_page (w : World) (s : MgrState) (r : RequestData) :
    Except PyErr FetchResult × MgrState × List Event :=
  match start_driver w s with
  | (.error e, s1, ev1) => (.error e, s1, ev1)
  | (.ok _, s1, ev1) =>
    match dispatch w r with
    | (.ok content, ev2) =>
      match reset_driver w s1 with
      | (.ok (), s2, ev3) => (.ok ⟨"success", content⟩, s2, ev1 ++ ev2 ++ ev3)
      | (.error e, s2, ev3) =>
        let (res, s3, ev4) := recover_and_raise w s2 e
        (res, s3, ev1 ++ ev2 ++ ev3 ++ ev4)
    | (.error e, ev2) =>
      let (res, s3, ev4) := recover_and_raise w s1 e
      (res, s3, ev1 ++ ev2 ++ ev4)

/-- Embedding of the `GET /proxy` endpoint body (app.py lines 156-157): the
`RequestData` it constructs, with `params or {}` and `headers or {}` and all
other fields left at their pydantic defaults. -/
def proxy_get (url : String)
    (params headers : Option (List (String × String))) : RequestData :=
  { url := url, params := params.getD [], headers := headers.getD [] }

/-- An all-benign world: every driver start succeeds, quit and reset never
fail, navigation always succeeds, every element is found, and the upstream
server answers every POST with 200. -/
def wDefault : World :=
  { startFails := fun _ => false, quitFails := fun _ => false,
    navFails := fun _ => false, pageSource := fun _ => "<html></html>",
    postSubmitSource := fun _ => "<html>submitted</html>",
    findCss := fun _ => true, findName := fun _ => true,
    postStatus := fun _ => 200, resetFails := fun _ => false }

/-- The form-branch condition read literally from the specification text:
`formFields` non-empty and both selectors PRESENT (an `Optional` holding a
value), with no requirement that the selector strings be non-empty. -/
def formSelectedSpec (r : RequestData) : Prop :=
  r.data ≠ [] ∧ r.form_selector.isSome = true ∧ r.submit_selector.isSome = true

/-- A world whose upstream server answers every POST with HTTP 101, an
informational status that is neither 2xx nor 3xx and that
`raise_for_status` does not raise for. -/
def wC4 : World := { wDefault with postStatus := fun _ => 101 }

/-- A world whose upstream server answers every POST with HTTP 503. -/
def w503 : World := { wDefault with postStatus := fun _ => 503 }

/-- A world in which every navigation fails but everything else is benign. -/
def wNavFail : World := { wDefault with navFails := fun _ => true }

/-- A world in which the first driver creation (attempt 0) succeeds and every
later creation attempt fails, and every navigation fails. -/
def wC2 : World :=
  { wDefault with navFails := fun _ => true, startFails := fun n => !(n == 0) }

/-- A world in which the in-place reset always fails and every driver
creation attempt fails. -/
def wC3 : World :=
  { wDefault with resetFails := fun _ => true, startFails := fun _ => true }

/-- A world in which only the in-place reset fails. -/
def wResetFail : World := { wDefault with resetFails := fun _ => true }

/-- A world in which every driver creation attempt fails. -/
def wC5 : World := { wDefault with startFails := fun _ => true }

/-- Model of the requests-library URL preparation for the `params` argument
of `requests.post` (app.py line 131): for already-encoded ASCII keys and
values, requests urlencodes the mapping and appends it to the request URL
with `?` when the URL has no query separator and with `&` when it has one.
This mirrors the documented behaviour the call site relies on; percent
re-encoding is not modelled since the specification states keys and values
are pre-encoded. -/
def requests_effective_url (url : String)
    (params : List (String × String)) : String :=
  if params.isEmpty then url
  else if url.contains '?' then url ++ "&" ++ query_string params
  else url ++ "?" ++ query_string params

/-- A hybrid JSON request with one query parameter, used as the C9
witness input. -/
def rJsonP : RequestData :=
  { url := "http://x", params := [("a", "1")], json_data := [("k", "v")] }

/-- A request with non-empty form data, both selectors truthy and a
non-empty JSON body, used as the C1 witness input. -/
def rC1w : RequestData :=
  { url := "http://x", data := [("q", "hello")], json_data := [("k", "v")],
    form_selector := some "form#s", submit_selector := some "button" }

/-- Helper: a string contains a character exactly when the character is in
its data; stated as Bool equations usable for rewriting, since
`String.contains` does not reduce in the kernel. -/
lemma contains_true_of (s : String) (c : Char) (h : c ∈ s.data) :
    s.contains c = true :=
  (String.contains_iff s c).2 h

lemma contains_false_of (s : String) (c : Char) (h : c ∉ s.data) :
    s.contains c = false := by
  by_contra hb
  exact h ((String.contains_iff s c).1 (by simpa using hb))

lemma contains_append_q (a b : String) : (a ++ "?" ++ b).contains '?' = true :=
  contains_true_of _ _ (by simp [String.data_append])

/-- Claim C1, counterexample: a request with a non-empty form-field map and
both selectors present, but with `form_selector` the empty string, satisfies
the claim-side selection condition yet the code takes the plain-navigation
branch, because Python truthiness of the empty string is false at
app.py line 113. -/
theorem C1_counterexample :
    formSelectedSpec
      { url := "http://x", data := [("q", "hello")],
        form_selector := some "", submit_selector := some "button" } ∧
    selectStrategy
      { url := "http://x", data := [("q", "hello")],
        form_selector := some "", submit_selector := some "button" }
      = Strategy.plain :=
  ⟨⟨by decide, rfl, rfl⟩, by decide⟩

/-- Claim C1 (amended): the form strategy is selected iff `data` is non-empty
and both selectors are present AND non-empty (Python truthiness), and this
branch wins even when `json_data` is also non-empty; the hybrid JSON branch
is selected iff the form condition fails and `json_data` is non-empty. -/
theorem C1_form_priority (r : RequestData) :
    (selectStrategy r = Strategy.form ↔
      (r.data ≠ [] ∧ truthy r.form_selector = true ∧
        truthy r.submit_selector = true)) ∧
    (selectStrategy r = Strategy.jsonHybrid ↔
      (formCond r = false ∧ r.json_data ≠ [])) := by
  constructor
  · unfold selectStrategy formCond
    cases hd : r.data.isEmpty <;>
      cases h2 : truthy r.form_selector <;>
        cases h3 : truthy r.submit_selector <;>
          simp_all <;> split <;> simp_all
  · unfold selectStrategy
    cases hf : formCond r <;>
      cases hj : r.json_data.isEmpty <;>
        simp_all

/-- Claim C6: URL assembly.  Empty `params` leaves the URL unchanged;
non-empty `params` are rendered as `key=value` joined with `&` and appended
with `?` when the base URL has no `?` character (no existing query
component) and with `&` otherwise; including the two concrete examples from
the specification and the rendering of a two-entry map. -/
theorem C6_url_assembly :
    (∀ url : String, build_url url [] = url) ∧
    (∀ (url : String) (params : List (String × String)), params ≠ [] →
      build_url url params =
        if url.contains '?' then url ++ "&" ++ query_string params
        else url ++ "?" ++ query_string params) ∧
    build_url "http://x" [("a", "1")] = "http://x?a=1" ∧
    build_url "http://x?y=2" [("a", "1")] = "http://x?y=2&a=1" ∧
    query_string [("a", "1"), ("b", "2")] = "a=1&b=2" := by
  refine ⟨fun url => rfl, fun url params hp => ?_, ?_, ?_, by decide⟩
  · rw [build_url]
    cases hc : url.contains '?' <;> simp [hp, hc]
  · rw [build_url, contains_false_of "http://x" '?' (by decide)]
    decide
  · rw [build_url, contains_true_of "http://x?y=2" '?' (by decide)]
    decide

/-- Claim C6, witness: the general assembly rule applied at a concrete base
URL and parameter map. -/
theorem C6_url_assembly_witness :
    build_url "http://a" [("k", "v")] =
      if ("http://a").contains '?' then "http://a" ++ "&" ++ query_string [("k", "v")]
      else "http://a" ++ "?" ++ query_string [("k", "v")] :=
  C6_url_assembly.2.1 "http://a" [("k", "v")] (by decide)

/-- Claim C8: `stop_driver` is a no-op when no driver exists, always leaves
the handle cleared, is idempotent (the second of two consecutive calls does
nothing), and its resulting state does not depend on whether the underlying
quit call fails (the termination error is swallowed). -/
theorem C8_stop_driver_idempotent :
    (∀ (w : World) (k : Nat), stop_driver w ⟨none, k⟩ = (⟨none, k⟩, [])) ∧
    (∀ (w : World) (s : MgrState), ((stop_driver w s).1).driver = none) ∧
    (∀ (w : World) (s : MgrState),
      stop_driver w (stop_driver w s).1 = ((stop_driver w s).1, [])) ∧
    (∀ (w w2 : World) (s : MgrState), (stop_driver w s).1 = (stop_driver w2 s).1) := by
  refine ⟨fun w k => rfl, fun w s => ?_, fun w s => ?_, fun w w2 s => ?_⟩ <;>
    obtain ⟨d, n⟩ := s <;> cases d <;> simp [stop_driver]

/-- Helper: with an empty form map and empty JSON map, the dispatch trace
never holds a `post` event and is exactly one navigation to the assembled
URL. -/
lemma dispatch_plain (w : World) (r : RequestData)
    (hd : r.data = []) (hj : r.json_data = []) :
    (dispatch w r).2 = [Event.navigate (build_url r.url r.params)] ∧
    (w.navFails (build_url r.url r.params) = false →
      (dispatch w r).1 = .ok (w.pageSource (build_url r.url r.params))) := by
  have hf : formCond r = false := by simp [formCond, hd]
  rw [dispatch]
  simp only [hf, hj, nav]
  constructor
  · cases hn : w.navFails (build_url r.url r.params) <;> simp [hn]
  · intro hn
    simp [hn]

/-- Claim C7: for a request with empty `data` and empty `json_data`,
dispatch selects the plain-navigation strategy, its trace is exactly one
navigation to the assembled URL (so no out-of-band HTTP `post` event ever
occurs), and when navigation succeeds the captured markup is returned. -/
theorem C7_plain_default (w : World) (r : RequestData)
    (hd : r.data = []) (hj : r.json_data = []) :
    selectStrategy r = Strategy.plain ∧
    (∀ (u : String) (ps : List (String × String)),
      Event.post u ps ∉ (dispatch w r).2) ∧
    Event.navigate (build_url r.url r.params) ∈ (dispatch w r).2 ∧
    (w.navFails (build_url r.url r.params) = false →
      (dispatch w r).1 = .ok (w.pageSource (build_url r.url r.params))) := by
  have hf : formCond r = false := by simp [formCond, hd]
  obtain ⟨htr, hres⟩ := dispatch_plain w r hd hj
  refine ⟨by simp [selectStrategy, hf, hj], ?_, ?_, hres⟩
  · intro u ps
    rw [htr]
    simp
  · rw [htr]
    simp

/-- Claim C7, witness: a concrete no-form no-JSON request under the benign
world takes plain navigation and returns the captured markup. -/
theorem C7_plain_default_witness :
    selectStrategy { url := "http://example.com" } = Strategy.plain ∧
    (dispatch wDefault { url := "http://example.com" }).1 = .ok "<html></html>" :=
  ⟨(C7_plain_default wDefault { url := "http://example.com" } rfl rfl).1,
   (C7_plain_default wDefault { url := "http://example.com" } rfl rfl).2.2.2 rfl⟩

/-- Claim C10: the request value built by the GET endpoint has empty form
data, empty JSON data and no selectors, so it always selects the
plain-navigation strategy and its dispatch trace can never hold an
out-of-band HTTP `post` event. -/
theorem C10_get_always_plain (url : String)
    (p hs : Option (List (String × String))) (w : World) :
    (proxy_get url p hs).data = [] ∧
    (proxy_get url p hs).json_data = [] ∧
    (proxy_get url p hs).form_selector = none ∧
    (proxy_get url p hs).submit_selector = none ∧
    selectStrategy (proxy_get url p hs) = Strategy.plain ∧
    (∀ (u : String) (ps : List (String × String)),
      Event.post u ps ∉ (dispatch w (proxy_get url p hs)).2) := by
  obtain ⟨htr, _⟩ := dispatch_plain w (proxy_get url p hs) rfl rfl
  refine ⟨rfl, rfl, rfl, rfl, by simp [selectStrategy, formCond, proxy_get], ?_⟩
  intro u ps
  rw [htr]
  simp

/-- Claim C4, counterexample: with an upstream status of 101 (non-2xx/3xx)
the JSON strategy does NOT abort: `raise_for_status` raises only for
statuses in `[400, 600)`, so the code proceeds to navigate the browser and
returns success, contradicting the claim that any non-2xx/3xx status aborts
before navigation. -/
theorem C4_counterexample :
    ¬(200 ≤ wC4.postStatus "http://x" ∧ wC4.postStatus "http://x" ≤ 399) ∧
    dispatch wC4 { url := "http://x", json_data := [("k", "v")] }
      = (.ok "<html></html>", [.post "http://x" [], .navigate "http://x"]) :=
  ⟨by decide, rfl⟩

/-- Claim C4 (amended): in the hybrid JSON strategy, a 4xx or 5xx upstream
status makes dispatch fail with the wrapped `UpstreamPost` error
(`HTTPException(500, "Error in POST request: ...")`) and the trace holds no
navigation event; for any other status the browser is asked to navigate to
the assembled URL, and when that navigation succeeds the captured markup is
returned. -/
theorem C4_upstream_abort (w : World) (r : RequestData)
    (hf : formCond r = false) (hj : r.json_data ≠ []) :
    (400 ≤ w.postStatus (build_url r.url r.params) →
      w.postStatus (build_url r.url r.params) < 600 →
      dispatch w r =
        (.error (.httpExc 500 ("Error in POST request: " ++
          statusErrorMsg (w.postStatus (build_url r.url r.params))
            (build_url r.url r.params))),
         [.post (build_url r.url r.params) r.params]) ∧
      (∀ u : String, Event.navigate u ∉ (dispatch w r).2)) ∧
    (¬(400 ≤ w.postStatus (build_url r.url r.params) ∧
        w.postStatus (build_url r.url r.params) < 600) →
      Event.navigate (build_url r.url r.params) ∈ (dispatch w r).2 ∧
      (w.navFails (build_url r.url r.params) = false →
        (dispatch w r).1 = .ok (w.pageSource (build_url r.url r.params)))) := by
  have hj2 : r.json_data.isEmpty = false := by simp [hj]
  constructor
  · intro h4 h6
    have hcond : 400 ≤ w.postStatus (build_url r.url r.params) ∧
        w.postStatus (build_url r.url r.params) < 600 := ⟨h4, h6⟩
    have hd : dispatch w r =
        (.error (.httpExc 500 ("Error in POST request: " ++
          statusErrorMsg (w.postStatus (build_url r.url r.params))
            (build_url r.url r.params))),
         [.post (build_url r.url r.params) r.params]) := by
      rw [dispatch]
      simp [hf, hj2, hcond]
    refine ⟨hd, fun u => ?_⟩
    rw [hd]
    simp
  · intro hcond
    rw [dispatch]
    simp only [hf, hj2, Bool.not_false, if_true, Bool.false_eq_true, if_false,
      Bool.not_eq_true]
    rw [if_neg hcond]
    constructor
    · cases hn : w.navFails (build_url r.url r.params) <;> simp [nav, hn]
    · intro hn
      simp [nav, hn]

/-- Claim C4, witness: a POST request against an upstream answering 503
fails with the wrapped upstream error and never navigates. -/
theorem C4_upstream_abort_witness :
    dispatch w503 { url := "http://x", json_data := [("k", "v")] } =
      (.error (.httpExc 500 ("Error in POST request: " ++
        statusErrorMsg (w503.postStatus (build_url "http://x" []))
          (build_url "http://x" []))),
       [.post (build_url "http://x" []) []]) :=
  ((C4_upstream_abort w503 { url := "http://x", json_data := [("k", "v")] }
    rfl (by decide)).1 (by decide) (by decide)).1

/-- Claim C2, counterexample: starting with no driver, the first acquire
succeeds, the dispatch navigation fails, recovery stops the driver and the
restart attempt fails; `fetch_page` surfaces the restart error and leaves
the session with NO live driver handle, contradicting the claim that the
session is always Ready after `fetch_page` returns. -/
theorem C2_counterexample :
    ((fetch_page wC2 ⟨none, 0⟩ { url := "http://x" }).2.1).driver = none ∧
    (fetch_page wC2 ⟨none, 0⟩ { url := "http://x" }).1
      = .error (.initError 1) :=
  ⟨rfl, rfl⟩

/-- Claim C2 (amended): provided every driver-creation attempt succeeds,
after `fetch_page` returns - with a success result or with an error - the
manager holds a live driver handle, ready for the next call. -/
theorem C2_session_ready (w : World) (s : MgrState) (r : RequestData)
    (h : ∀ n, w.startFails n = false) :
    ((fetch_page w s r).2.1).driver.isSome = true := by
  obtain ⟨d, n⟩ := s
  have hrec : ∀ (s2 : MgrState) (e : PyErr),
      (((recover_and_raise w s2 e).2.1).driver.isSome = true) := by
    intro s2 e
    obtain ⟨d2, n2⟩ := s2
    cases d2 <;> simp [recover_and_raise, stop_driver, start_driver, h]
  have hreset : ∀ (s2 : MgrState),
      (((reset_driver w s2).2.1).driver.isSome = true) ∧
      ((reset_driver w s2).1 = .ok ()) := by
    intro s2
    obtain ⟨d2, n2⟩ := s2
    cases d2 with
    | none => simp [reset_driver, stop_driver, start_driver, h]
    | some id =>
      cases hr : w.resetFails id <;>
        simp [reset_driver, stop_driver, start_driver, h, hr]
  cases d with
  | none =>
    rw [fetch_page]
    simp only [start_driver, h, Bool.false_eq_true, if_false]
    rcases hdisp : dispatch w r with ⟨res, ev2⟩
    cases res with
    | ok content =>
      rcases hrs : reset_driver w ⟨some n, n + 1⟩ with ⟨rr, s2, ev3⟩
      have := hreset ⟨some n, n + 1⟩
      rw [hrs] at this
      rcases this with ⟨h1, h2⟩
      simp only at h2
      subst h2
      simp [h1]
    | error e =>
      simp [hrec]
  | some id =>
    rw [fetch_page]
    simp only [start_driver]
    rcases hdisp : dispatch w r with ⟨res, ev2⟩
    cases res with
    | ok content =>
      rcases hrs : reset_driver w ⟨some id, n⟩ with ⟨rr, s2, ev3⟩
      have := hreset ⟨some id, n⟩
      rw [hrs] at this
      rcases this with ⟨h1, h2⟩
      simp only at h2
      subst h2
      simp [h1]
    | error e =>
      simp [hrec]

/-- Claim C2, witness: under the benign world a fresh manager runs a plain
fetch and is left holding a live driver handle. -/
theorem C2_session_ready_witness :
    ((fetch_page wDefault ⟨none, 0⟩ { url := "http://example.com" }).2.1).driver.isSome
      = true :=
  C2_session_ready wDefault ⟨none, 0⟩ { url := "http://example.com" }
    (fun _ => rfl)

/-- Claim C3, counterexample: when the in-place reset fails AND the fallback
restart also fails, `reset_driver` raises the restart error to its caller
(the fallback `start_driver` call at app.py line 91 is not inside any
handler), contradicting the claim that clearing never propagates an
error. -/
theorem C3_counterexample :
    reset_driver wC3 ⟨some 0, 1⟩ =
      (.error (.initError 1), ⟨none, 2⟩,
        [.quit 0 false, .startAttempt 1 false]) :=
  rfl

/-- Claim C3 (amended): `reset_driver` returns without error whenever the
fallback driver creation succeeds - in particular the original in-place
reset failure is never propagated; unconditionally, the only error
`reset_driver` can ever propagate is a driver-creation (`Init`) error from
the fallback acquire, never the reset failure itself. -/
theorem C3_clear_never_propagates (w : World) (s : MgrState) :
    (w.startFails s.nextId = false → (reset_driver w s).1 = .ok ()) ∧
    (∀ e : PyErr, (reset_driver w s).1 = .error e →
      ∃ n : Nat, e = PyErr.initError n) := by
  obtain ⟨d, n⟩ := s
  constructor
  · intro h
    cases d with
    | none => simp [reset_driver, stop_driver, start_driver, h]
    | some id =>
      cases hr : w.resetFails id <;>
        simp [reset_driver, stop_driver, start_driver, h, hr]
  · intro e he
    cases d with
    | none =>
      cases hst : w.startFails n <;>
        simp [reset_driver, stop_driver, start_driver, hst] at he
      exact ⟨n, he.symm⟩
    | some id =>
      cases hr : w.resetFails id with
      | false => simp [reset_driver, hr] at he
      | true =>
        cases hst : w.startFails n <;>
          simp [reset_driver, stop_driver, start_driver, hst, hr] at he
        exact ⟨n, he.symm⟩

/-- Claim C3, witness: with the in-place reset failing and driver creation
working, `reset_driver` still reports success (it took the restart
fallback). -/
theorem C3_clear_never_propagates_witness :
    (reset_driver wResetFail ⟨some 0, 1⟩).1 = .ok () :=
  (C3_clear_never_propagates wResetFail ⟨some 0, 1⟩).1 rfl

/-- Claim C5, counterexample: when the initial acquire itself fails
(app.py line 105, outside the `try`), `fetch_page` surfaces the bare init
error with NO recovery: the trace shows no quit and no successful restart,
so the session is neither destroyed-and-recreated nor left usable, and the
surfaced error is not the unified `"Error fetching URL: ..."` failure. -/
theorem C5_counterexample :
    fetch_page wC5 ⟨none, 0⟩ { url := "http://x" } =
      (.error (.initError 0), ⟨none, 1⟩, [.startAttempt 0 false]) :=
  rfl

/-- Claim C5 (amended): for every `fetch_page` call entered with a live
driver whose dispatch fails, provided the recovery restart succeeds, the
old driver is quit, a fresh driver is created, and exactly one error - the
`HTTPException` whose detail embeds the original failure message - is
surfaced; the trace after the failing dispatch is exactly the quit and the
restart, so the request is never retried. -/
theorem C5_failure_recovery (w : World) (s : MgrState) (r : RequestData)
    (id : Nat) (e : PyErr) (ev2 : List Event)
    (hid : s.driver = some id)
    (hstart : w.startFails s.nextId = false)
    (hdisp : dispatch w r = (.error e, ev2)) :
    fetch_page w s r =
      (.error (.httpExc 500 ("Error fetching URL: " ++ errMsg e)),
       ⟨some s.nextId, s.nextId + 1⟩,
       ev2 ++ [.quit id (w.quitFails id), .startAttempt s.nextId true]) := by
  obtain ⟨d, n⟩ := s
  simp only at hid hstart
  subst hid
  rw [fetch_page]
  simp [start_driver, recover_and_raise, stop_driver, hdisp, hstart]

/-- Claim C5, witness: a failing navigation under an otherwise benign world
destroys driver 0, creates driver 1, and surfaces the single wrapped
error. -/
theorem C5_failure_recovery_witness :
    fetch_page wNavFail ⟨some 0, 1⟩ { url := "http://x" } =
      (.error (.httpExc 500 ("Error fetching URL: " ++
        errMsg (.navError "http://x"))),
       ⟨some 1, 2⟩,
       [.navigate "http://x"] ++ [.quit 0 false, .startAttempt 1 true]) :=
  C5_failure_recovery wNavFail ⟨some 0, 1⟩ { url := "http://x" } 0
    (.navError "http://x") [.navigate "http://x"] rfl rfl rfl

/-- Claim C9: in the hybrid JSON strategy with non-empty `params`, the
out-of-band POST is issued against the already-assembled URL while the same
`params` mapping is passed again as the HTTP-client argument (first
conjunct: the first traced event records both), so the effective POST URL
carries the rendered query string twice (second conjunct, for a base URL
without a query separator: the query string appears literally twice). -/
theorem C9_params_duplicated (w : World) (r : RequestData)
    (hf : formCond r = false) (hj : r.json_data ≠ []) (hp : r.params ≠ []) :
    (dispatch w r).2.head? =
      some (.post (build_url r.url r.params) r.params) ∧
    (r.url.contains '?' = false →
      requests_effective_url (build_url r.url r.params) r.params =
        r.url ++ "?" ++ query_string r.params ++ "&" ++ query_string r.params) := by
  have hj2 : r.json_data.isEmpty = false := by simp [hj]
  have hp2 : r.params.isEmpty = false := by simp [hp]
  constructor
  · rw [dispatch]
    simp only [hf, hj2, Bool.not_false, Bool.false_eq_true, if_false, if_true]
    split
    · simp
    · cases hn : nav w (build_url r.url r.params) <;> simp [hn]
  · intro hq
    have hb : build_url r.url r.params = r.url ++ "?" ++ query_string r.params := by
      rw [build_url]
      simp [hp2, hq]
    rw [hb, requests_effective_url]
    simp [hp2, contains_append_q]

/-- Claim C9, witness: for a concrete hybrid POST with one query parameter,
the traced POST carries the assembled URL and the parameter map again, and
the effective POST URL contains `a=1` twice. -/
theorem C9_params_duplicated_witness :
    (dispatch wDefault rJsonP).2.head? =
      some (.post (build_url "http://x" [("a", "1")]) [("a", "1")]) ∧
    requests_effective_url (build_url "http://x" [("a", "1")]) [("a", "1")] =
      "http://x" ++ "?" ++ query_string [("a", "1")] ++ "&" ++
        query_string [("a", "1")] :=
  ⟨(C9_params_duplicated wDefault rJsonP rfl (by decide) (by decide)).1,
   (C9_params_duplicated wDefault rJsonP rfl (by decide) (by decide)).2
     (contains_false_of "http://x" '?' (by decide))⟩

/-- Claim C1, witness for the amended selection rule at a concrete request
with non-empty form data, both selectors truthy and a non-empty JSON body:
the form branch wins over the JSON branch. -/
theorem C1_form_priority_witness :
    selectStrategy rC1w = Strategy.form ↔
      (rC1w.data ≠ [] ∧ truthy rC1w.form_selector = true ∧
        truthy rC1w.submit_selector = true) :=
  (C1_form_priority rC1w).1

/-- Claim C8, witness: stopping with no driver present is a no-op at a
concrete state. -/
theorem C8_stop_driver_idempotent_witness :
    stop_driver wDefault ⟨none, 5⟩ = (⟨none, 5⟩, []) :=
  C8_stop_driver_idempotent.1 wDefault 5

/-- Claim C10, witness: a concrete GET-endpoint request selects plain
navigation. -/
theorem C10_get_always_plain_witness :
    selectStrategy (proxy_get "http://example.com" none none) = Strategy.plain :=
  (C10_get_always_plain "http://example.com" none none wDefault).2.2.2.2.1
